import Mathlib

/-!
Verification of the FinOps dashboard framework utilities against its
specification.  The Python sources are shallowly embedded: optional /
NaN-capable numeric cells become the `Val` type, exact arithmetic uses `ℚ`,
dates are day ordinals in `ℤ`, and Python string formatting (`f"{x:.1f}"`,
`"{:,.0f}"`, `"{:+.2%}"`) is reproduced by explicit string builders with
round-half-even semantics (Python's `round` and float formatting both round
halves to even).
-/

/-- A nullable, NaN-capable numeric value, as passed around the Python code
(`Union[int, float, None]` where the float may be NaN). -/
inductive Val where
  | null
  | nan
  | num (q : ℚ)
deriving DecidableEq, Repr

/-- Python's `round` to an integer: round half to even (banker's rounding). -/
def pyRound (q : ℚ) : ℤ :=
  let f := ⌊q⌋
  let r := q - f
  if r < 1/2 then f
  else if 1/2 < r then f + 1
  else if f % 2 = 0 then f else f + 1

/-- Left-pad a string with '0' to length `d`. -/
def padZeros (s : String) (d : ℕ) : String :=
  String.mk (List.replicate (d - s.length) '0') ++ s

/-- Insert thousands separators into a reversed digit list: after every three
digits (scanning from the least significant end) a comma is inserted. -/
def commaGroupRev : List Char → List Char
  | a :: b :: c :: d :: rest => a :: b :: c :: ',' :: commaGroupRev (d :: rest)
  | l => l

/-- Group the digits of a number string in threes with commas, as Python's
`,` format flag does (input is the plain digit string of a natural number). -/
def commaGroup (s : String) : String :=
  String.mk (commaGroupRev s.data.reverse).reverse

/-- Python `f"{n:.{d}f}"` for an integer `n`: the integer followed by `d`
zero decimals. -/
def fmtIntFixed (n : ℤ) (d : ℕ) : String :=
  if d = 0 then toString n
  else toString n ++ "." ++ String.mk (List.replicate d '0')

/-- Python `f"{q:.{d}f}"`: fixed-point rendering of `q` with `d` decimals,
rounding half to even. -/
def fmtFixed (q : ℚ) (d : ℕ) : String :=
  let scaled := pyRound (q * 10 ^ d)
  let sign := if scaled < 0 then "-" else ""
  let n := scaled.natAbs
  if d = 0 then sign ++ toString n
  else sign ++ toString (n / 10 ^ d) ++ "." ++ padZeros (toString (n % 10 ^ d)) d

/-- Python `f"{q:,.{d}f}"`: like `fmtFixed` but with thousands separators in
the integer part. -/
def fmtCommaFixed (q : ℚ) (d : ℕ) : String :=
  let scaled := pyRound (q * 10 ^ d)
  let sign := if scaled < 0 then "-" else ""
  let n := scaled.natAbs
  if d = 0 then sign ++ commaGroup (toString n)
  else sign ++ commaGroup (toString (n / 10 ^ d)) ++ "." ++ padZeros (toString (n % 10 ^ d)) d

/-- Python `"{:+.{d}%}".format q`: an explicit sign, the value times 100 with
`d` decimals, and a percent sign. -/
def fmtSignedPct (q : ℚ) (d : ℕ) : String :=
  let scaled := pyRound (q * 100 * 10 ^ d)
  let n := scaled.natAbs
  let body :=
    if d = 0 then toString n
    else toString (n / 10 ^ d) ++ "." ++ padZeros (toString (n % 10 ^ d)) d
  (if scaled < 0 then "-" else "+") ++ body ++ "%"

/-- Python `str` of a float whose shortest representation is a short decimal:
the minimal number of decimals (at least one), e.g. `str(2.0) = "2.0"`,
`str(2.5) = "2.5"`.  The number of decimals needed is the least `d` with
`q * 10 ^ d` integral, i.e. with the reduced denominator dividing `10 ^ d`. -/
def pyStrFloat (q : ℚ) : String :=
  let d := ((List.range 21).find? fun d => q.den ∣ 10 ^ d).getD 20
  fmtFixed q (if d = 0 then 1 else d)

/-! ## src/utils/helpers.py -/

/-- `helpers.format_currency`: "N/A" for null/NaN, else the symbol followed by
the value grouped by thousands with the given decimals. -/
def format_currency (value : Val) (currency_symbol : String) (decimal_places : ℕ) : String :=
  match value with
  | Val.null => "N/A"
  | Val.nan => "N/A"
  | Val.num q => currency_symbol ++ fmtCommaFixed q decimal_places

/-- `helpers.format_percentage`: "N/A" for null/NaN, else the fraction times
100 with the given decimals and a percent sign (`f"{value:.{d}%}"`). -/
def format_percentage (value : Val) (decimal_places : ℕ) : String :=
  match value with
  | Val.null => "N/A"
  | Val.nan => "N/A"
  | Val.num q => fmtFixed (q * 100) decimal_places ++ "%"

/-- `helpers.calculate_delta_percentage`: None when either input is null/NaN;
when the previous value is 0, 0.0 if the current is also 0 and None otherwise;
else `(current - previous) / previous`. -/
def calculate_delta_percentage (current_value previous_value : Val) : Option ℚ :=
  match current_value, previous_value with
  | Val.num c, Val.num p =>
    if p = 0 then (if c = 0 then some 0 else none)
    else some ((c - p) / p)
  | _, _ => none

/-- Python `str.upper()` on the ASCII strings the unit argument takes. -/
def asciiUpperChar (c : Char) : Char :=
  if 'a' ≤ c ∧ c ≤ 'z' then Char.ofNat (c.toNat - 32) else c

/-- Python `str.upper()` for an ASCII string, character by character. -/
def asciiUpper (s : String) : String :=
  String.mk (s.data.map asciiUpperChar)

/-- The unit table of `helpers.format_bytes`. -/
def bytesUnits : List (String × ℕ) := [("KB", 1), ("MB", 2), ("GB", 3), ("TB", 4)]

/-- `helpers.format_bytes`: "N/A" for null/NaN (checked first); then the unit
is validated (`ValueError`, modelled as `Except.error`, when unrecognized);
else the value divided by `1024 ^ power` with thousands grouping and the
upper-cased unit appended. -/
def format_bytes (bytes_value : Val) (unit : String) (decimal_places : ℕ) :
    Except String String :=
  match bytes_value with
  | Val.null => Except.ok "N/A"
  | Val.nan => Except.ok "N/A"
  | Val.num q =>
    match bytesUnits.lookup (asciiUpper unit) with
    | none => Except.error "Invalid unit. Choose from KB, MB, GB, TB"
    | some power =>
      Except.ok (fmtCommaFixed (q / 1024 ^ power) decimal_places ++ " " ++ asciiUpper unit)

/-- `helpers.format_duration_seconds`: "N/A" for null/NaN; otherwise the value
is rounded to the nearest whole second (`int(round(seconds))`) and decomposed
with `divmod` into days/hours/minutes/seconds, rendering only the units the
magnitude requires; the seconds component is printed with
`f"{seconds:.{decimal_places}f}"`. -/
def format_duration_seconds (seconds : Val) (decimal_places : ℕ) : String :=
  match seconds with
  | Val.null => "N/A"
  | Val.nan => "N/A"
  | Val.num q =>
    let s := pyRound q
    if s < 60 then fmtIntFixed s decimal_places ++ "s"
    else
      let m := Int.fdiv s 60
      let s1 := Int.fmod s 60
      if m < 60 then toString m ++ "m " ++ fmtIntFixed s1 decimal_places ++ "s"
      else
        let h := Int.fdiv m 60
        let m1 := Int.fmod m 60
        if h < 24 then
          toString h ++ "h " ++ toString m1 ++ "m " ++ fmtIntFixed s1 decimal_places ++ "s"
        else
          let dd := Int.fdiv h 24
          let h1 := Int.fmod h 24
          toString dd ++ "d " ++ toString h1 ++ "h " ++ toString m1 ++ "m "
            ++ fmtIntFixed s1 decimal_places ++ "s"

/-! ## src/core/data_fetcher.py -/

/-- `DataFetcher.calculate_prev_period_dates`, with dates as day ordinals:
`duration = end - start`, `prev_end = start - 1 day`,
`prev_start = prev_end - duration`. -/
def calculate_prev_period_dates (start_date end_date : ℤ) : ℤ × ℤ :=
  let duration := end_date - start_date
  let prev_end_date := start_date - 1
  let prev_start_date := prev_end_date - duration
  (prev_start_date, prev_end_date)

/-! ## src/ui/metric_card.py -/

/-- The functions that `hasattr(helpers, name) and inspect.isfunction(...)`
finds in `finops_framework.utils.helpers`. -/
def helperFunctionNames : List String :=
  ["format_currency", "format_percentage", "calculate_delta_percentage",
   "format_bytes", "format_duration_seconds"]

/-- The decimal-places extraction of `render_metric_card`:
`int(format_value.split('.')[-1][0])`, with `ValueError` / `IndexError`
(non-digit first character or empty last segment) modelled as `none`. -/
def extractDecimalPlaces (format_value : String) : Option ℕ :=
  match (format_value.splitOn ".").getLast? with
  | none => none
  | some last =>
    match last.data.head? with
    | none => none
    | some c => if c.isDigit then some (c.toNat - '0'.toNat) else none

/-- Dispatch of `render_metric_card` to a helper formatter.  For a numeric
value the decimal places are parsed out of `format_value` (falling back to the
helper's default — currency 2, percentage 1, bytes 2, duration 1 — when
parsing fails); for a null value the helper is called with its defaults.
`calculate_delta_percentage` is a function of two required arguments, so
calling it as a one-argument formatter raises `TypeError`, modelled as
`Except.error`; a `format_bytes` error would propagate the same way. -/
def applyHelperFormatter (name : String) (value : Val) (format_value : String) :
    Except String String :=
  let dp := match value with
    | Val.null => none
    | _ => extractDecimalPlaces format_value
  if name = "format_currency" then Except.ok (format_currency value "$" (dp.getD 2))
  else if name = "format_percentage" then Except.ok (format_percentage value (dp.getD 1))
  else if name = "format_bytes" then format_bytes value "GB" (dp.getD 2)
  else if name = "format_duration_seconds" then
    Except.ok (format_duration_seconds value (dp.getD 1))
  else Except.error "TypeError: missing required positional argument"

/-- The `display_value` computation of `render_metric_card`, returning the
rendered string together with a flag recording whether `st.warning` was
called.  `fmtValue` is the semantics of `format_value.format` (only ever
applied to non-null values, matching `... if value is not None else "N/A"`).
A named formatter that is not a helper function yields a warning and the
default template; a helper call that raises yields a warning and the raw
`str(value)` (or "N/A" for null). -/
def render_display_value (formatter_func : Option String) (value : Val)
    (format_value : String) (fmtValue : Val → String) : String × Bool :=
  match formatter_func with
  | some name =>
    if name ∈ helperFunctionNames then
      match applyHelperFormatter name value format_value with
      | Except.ok s => (s, false)
      | Except.error _ =>
        (match value with
         | Val.null => "N/A"
         | Val.nan => "nan"
         | Val.num q => pyStrFloat q, true)
    else
      (match value with
       | Val.null => "N/A"
       | v => fmtValue v, true)
  | none =>
    (match value with
     | Val.null => "N/A"
     | v => fmtValue v, false)

/-- The semantics of the default value template `"{:,.0f}".format` on the
values it is applied to (floats; NaN prints as "nan"). -/
def pyFormatCommaF0 : Val → String
  | Val.num q => fmtCommaFixed q 0
  | _ => "nan"

/-- The delta branch of `render_metric_card`: nothing is rendered when the
baseline `delta` is null; otherwise `calculate_delta_percentage value delta`
is taken, a defined delta is formatted with `format_delta` and — when a theme
configuration is supplied — coloured "inverse" (positive), "normal"
(negative) or "off" (zero), and an undefined delta renders as "N/A" with no
colour.  Returns `(display_delta, delta_color)`. -/
def render_delta (value delta : Val) (fmtDelta : ℚ → String) (theme_config : Bool) :
    Option String × Option String :=
  match delta with
  | Val.null => (none, none)
  | _ =>
    match calculate_delta_percentage value delta with
    | some dp =>
      (some (fmtDelta dp),
       if theme_config then
         some (if 0 < dp then "inverse" else if dp < 0 then "normal" else "off")
       else none)
    | none => (some "N/A", none)

/-! ## src/modules/dashboard_sections.py -/

/-- The columns of a fetched metric row that the Failed Query Rate special
case reads; `none` models an absent column (or an empty result). -/
structure FetchedRow where
  total_query_count : Option ℚ
  failed_query_count : Option ℚ
deriving DecidableEq, Repr

/-- The special handling of calculated metrics in `display_metric_section`:
when the label is "Failed Query Rate" and the section is "USER_360_METRICS",
the current value is recomputed as `FAILED_QUERY_COUNT / TOTAL_QUERY_COUNT`
(0.0 when the total is not positive, a missing column counting as 0) and the
previous value is forced to null so no delta is shown; any other metric keeps
the generically extracted values. -/
def resolveSpecialMetric (label section_key : String) (row : FetchedRow)
    (current_value previous_value : Val) : Val × Val :=
  if label = "Failed Query Rate" ∧ section_key = "USER_360_METRICS" then
    let total_queries := row.total_query_count.getD 0
    let failed_queries := row.failed_query_count.getD 0
    (if 0 < total_queries then Val.num (failed_queries / total_queries) else Val.num 0,
     Val.null)
  else (current_value, previous_value)

/-! ## src/ui/chart_renderer.py -/

/-- The percentage column of `_render_pie_chart`: each row's value divided by
the column total when the total is positive, and the scalar 0 broadcast to
every row otherwise. -/
def pieShares (values : List ℚ) : List ℚ :=
  let total := values.sum
  if 0 < total then values.map fun v => v / total
  else values.map fun _ => 0

/-! ## src/insights/recommendations.py -/

/-- The warehouse-scoped auto-suspend rule of
`generate_finops_recommendations`: when the fetched `IDLE_PERCENTAGE` is a
number above 20 and `AUTO_SUSPEND` exceeds `60 * 5` seconds, an advisory
naming the warehouse is appended (a null or NaN idle percentage never fires,
since `NaN > 20` is false in Python). -/
def warehouseIdleRecommendation (selected_warehouse : String) (idle_percentage : Val)
    (auto_suspend_setting : ℚ) : Option String :=
  match idle_percentage with
  | Val.num ip =>
    if 20 < ip ∧ 60 * 5 < auto_suspend_setting then
      some ("Warehouse **" ++ selected_warehouse ++ "** has **"
        ++ format_percentage (Val.num (ip / 100)) 1 ++ "** idle time "
        ++ "and an auto-suspend setting of **"
        ++ format_duration_seconds (Val.num auto_suspend_setting) 1 ++ "**. "
        ++ "Consider reducing auto-suspend to 1 or 5 minutes to optimize cost.")
    else none
  | _ => none

/-- The tail of `generate_finops_recommendations`: an empty accumulated list
is replaced by the single fixed sentinel advisory, a nonempty one is returned
as is. -/
def finalizeRecommendations (recommendations : List String) : List String :=
  if recommendations.isEmpty then
    ["No specific recommendations at this time for the selected criteria. Keep monitoring!"]
  else recommendations

/-! ## Claims -/

/-- C1, counterexample: with the default 1 decimal place the code rounds to
the nearest whole second first, so `format_duration(59.4)` renders "59.0s",
not "59.4s" as the claim states (and `format_duration(60)` renders "1m 0.0s",
not "1m 0s"). -/
theorem C1_counterexample :
    format_duration_seconds (Val.num (297/5)) 1 = "59.0s"
      ∧ "59.0s" ≠ "59.4s"
      ∧ format_duration_seconds (Val.num 60) 1 = "1m 0.0s"
      ∧ "1m 0.0s" ≠ "1m 0s" := by
  have h1 : pyRound (297/5) = 59 := by norm_num [pyRound]
  have h2 : pyRound 60 = 60 := by norm_num [pyRound]
  refine ⟨?_, by decide, ?_, by decide⟩
  · simp only [format_duration_seconds, h1]
    decide
  · simp only [format_duration_seconds, h2]
    decide

/-- C1, amended: for the duration formatter with the default 1 decimal place,
the input is rounded to the nearest whole second before decomposition, so
`format_duration(59.4)` returns "59.0s", `format_duration(60)` returns
"1m 0.0s", `format_duration(3661)` returns "1h 1m 1.0s", and
`format_duration(None)` returns "N/A". -/
theorem C1_format_duration_amended :
    format_duration_seconds (Val.num (297/5)) 1 = "59.0s"
      ∧ format_duration_seconds (Val.num 60) 1 = "1m 0.0s"
      ∧ format_duration_seconds (Val.num 3661) 1 = "1h 1m 1.0s"
      ∧ format_duration_seconds Val.null 1 = "N/A" := by
  have h1 : pyRound (297/5) = 59 := by norm_num [pyRound]
  have h2 : pyRound 60 = 60 := by norm_num [pyRound]
  have h3 : pyRound 3661 = 3661 := by norm_num [pyRound]
  refine ⟨?_, ?_, ?_, rfl⟩
  · simp only [format_duration_seconds, h1]
    decide
  · simp only [format_duration_seconds, h2]
    decide
  · simp only [format_duration_seconds, h3]
    decide

/-- C2: the delta function returns `(current - previous) / previous` for
non-null, non-NaN numbers with a nonzero previous; `0.0` when both are 0;
`None` when previous is 0 and current is nonzero, and whenever either input
is null or NaN; in particular `calculate_delta(x, x) = 0.0` for nonzero x. -/
theorem C2_calculate_delta_spec :
    (∀ c p : ℚ, p ≠ 0 →
        calculate_delta_percentage (Val.num c) (Val.num p) = some ((c - p) / p))
      ∧ calculate_delta_percentage (Val.num 0) (Val.num 0) = some 0
      ∧ (∀ c : ℚ, c ≠ 0 → calculate_delta_percentage (Val.num c) (Val.num 0) = none)
      ∧ (∀ v : Val,
          calculate_delta_percentage Val.null v = none
            ∧ calculate_delta_percentage v Val.null = none
            ∧ calculate_delta_percentage Val.nan v = none
            ∧ calculate_delta_percentage v Val.nan = none)
      ∧ (∀ x : ℚ, x ≠ 0 → calculate_delta_percentage (Val.num x) (Val.num x) = some 0) := by
  refine ⟨?_, rfl, ?_, ?_, ?_⟩
  · intro c p hp
    simp [calculate_delta_percentage, hp]
  · intro c hc
    simp [calculate_delta_percentage, hc]
  · intro v
    refine ⟨rfl, ?_, rfl, ?_⟩ <;> cases v <;> rfl
  · intro x hx
    simp [calculate_delta_percentage, hx]

/-- C2 witness: the theorem instantiated at concrete inputs
(5 vs 4, 0 vs 0, 5 vs 0, null vs 5, and 7 vs 7). -/
theorem C2_witness :
    calculate_delta_percentage (Val.num 5) (Val.num 4) = some ((5 - 4) / 4)
      ∧ calculate_delta_percentage (Val.num 0) (Val.num 0) = some 0
      ∧ calculate_delta_percentage (Val.num 5) (Val.num 0) = none
      ∧ calculate_delta_percentage Val.null (Val.num 5) = none
      ∧ calculate_delta_percentage (Val.num 7) (Val.num 7) = some 0 :=
  ⟨C2_calculate_delta_spec.1 5 4 (by norm_num),
   C2_calculate_delta_spec.2.1,
   C2_calculate_delta_spec.2.2.1 5 (by norm_num),
   (C2_calculate_delta_spec.2.2.2.1 (Val.num 5)).1,
   C2_calculate_delta_spec.2.2.2.2 7 (by norm_num)⟩

/-- C3: for start ≤ end, `calculate_prev_period_dates` returns
`(prev_start, prev_end)` with `prev_end = start - 1`,
`prev_end - prev_start = end - start`, and `prev_end < start`, so the
previous period has identical length and is immediately adjacent. -/
theorem C3_previous_period (s e : ℤ) (h : s ≤ e) :
    (calculate_prev_period_dates s e).2 = s - 1
      ∧ (calculate_prev_period_dates s e).2 - (calculate_prev_period_dates s e).1 = e - s
      ∧ (calculate_prev_period_dates s e).2 < s := by
  refine ⟨rfl, ?_, ?_⟩ <;> · simp only [calculate_prev_period_dates]; omega

/-- C3 witness: the theorem at the concrete period (day 100, day 130). -/
theorem C3_witness :
    (100 : ℤ) ≤ 130
      ∧ ((calculate_prev_period_dates 100 130).2 = 100 - 1
          ∧ (calculate_prev_period_dates 100 130).2 - (calculate_prev_period_dates 100 130).1
              = 130 - 100
          ∧ (calculate_prev_period_dates 100 130).2 < 100) :=
  ⟨by norm_num, C3_previous_period 100 130 (by norm_num)⟩

/-- C4, counterexample: for an unknown formatter name the metric does not
degrade to raw-string display — the code falls back to the default template
`format_value.format(value)`.  At value 2.0 with the default template
`"{:,.0f}"` the rendered value is "2" while `str(2.0)` is "2.0". -/
theorem C4_counterexample :
    render_display_value (some "format_xyz") (Val.num 2) "{:,.0f}" pyFormatCommaF0
        = ("2", true)
      ∧ pyStrFloat 2 = "2.0"
      ∧ ("2" : String) ≠ "2.0" := by
  have h : ("format_xyz" : String) ∉ helperFunctionNames := by decide
  refine ⟨?_, ?_, by decide⟩
  · simp only [render_display_value, if_neg h, pyFormatCommaF0, fmtCommaFixed]
    norm_num [pyRound]
    decide
  · have h3 : ((List.range 21).find? fun d => (2:ℚ).den ∣ 10 ^ d) = some 0 := by decide
    simp only [pyStrFloat, h3, Option.getD, fmtFixed]
    norm_num [pyRound]
    decide

/-- C4, amended: when a metric definition names a formatter that does not
exist in the helpers module, the rendering pass does not abort: a warning is
surfaced and that metric degrades to the default template formatting of the
value (`format_value.format(value)`, "N/A" for a null value) — not to
raw-string display. -/
theorem C4_unknown_formatter_degrades (name : String) (value : Val)
    (format_value : String) (fmtValue : Val → String)
    (h : name ∉ helperFunctionNames) :
    render_display_value (some name) value format_value fmtValue
      = ((match value with
          | Val.null => "N/A"
          | v => fmtValue v), true) := by
  simp only [render_display_value, if_neg h]

/-- C4 witness: the amended theorem at the unknown name "format_xyz" and the
numeric value 2 with the default template semantics. -/
theorem C4_witness :
    render_display_value (some "format_xyz") (Val.num 2) "{:,.0f}" pyFormatCommaF0
      = (pyFormatCommaF0 (Val.num 2), true) :=
  C4_unknown_formatter_degrades "format_xyz" (Val.num 2) "{:,.0f}" pyFormatCommaF0
    (by decide)

/-- C5: the "Failed Query Rate" metric of the USER_360 section is recomputed
as FAILED_QUERY_COUNT / TOTAL_QUERY_COUNT; a zero TOTAL_QUERY_COUNT yields
the value 0.0 (not "N/A"), and the previous value is forced to null so no
delta is produced. -/
theorem C5_failed_query_rate (row : FetchedRow) (cv pv : Val) (t f : ℚ)
    (ht : row.total_query_count = some t) (hf : row.failed_query_count = some f) :
    (0 < t → resolveSpecialMetric "Failed Query Rate" "USER_360_METRICS" row cv pv
        = (Val.num (f / t), Val.null))
      ∧ (t = 0 → resolveSpecialMetric "Failed Query Rate" "USER_360_METRICS" row cv pv
        = (Val.num 0, Val.null)) := by
  constructor
  · intro h0
    simp [resolveSpecialMetric, ht, hf, h0]
  · intro h0
    subst h0
    simp [resolveSpecialMetric, ht, hf]

/-- C5 witness: the theorem at a row with 4 total and 1 failed queries, and
at a row with 0 total queries. -/
theorem C5_witness :
    resolveSpecialMetric "Failed Query Rate" "USER_360_METRICS"
        ⟨some 4, some 1⟩ Val.null Val.null = (Val.num (1 / 4), Val.null)
      ∧ resolveSpecialMetric "Failed Query Rate" "USER_360_METRICS"
        ⟨some 0, some 7⟩ Val.null Val.null = (Val.num 0, Val.null) :=
  ⟨(C5_failed_query_rate ⟨some 4, some 1⟩ Val.null Val.null 4 1 rfl rfl).1 (by norm_num),
   (C5_failed_query_rate ⟨some 0, some 7⟩ Val.null Val.null 0 7 rfl rfl).2 rfl⟩

/-- C6, counterexample: with the configured delta template `"{:+.2%}"`,
current 1000 against previous 800 renders the display delta "+25.00%"
(two decimals), not "+25.0%" as the claim's example states. -/
theorem C6_counterexample :
    (render_delta (Val.num 1000) (Val.num 800) (fun q => fmtSignedPct q 2) true).1
        = some "+25.00%"
      ∧ some "+25.00%" ≠ some ("+25.0%" : String) := by
  have hc : calculate_delta_percentage (Val.num 1000) (Val.num 800) = some (1/4) := by
    norm_num [calculate_delta_percentage]
  have hs : fmtSignedPct (1/4) 2 = "+25.00%" := by
    have h : pyRound (1/4 * 100 * 10 ^ 2) = 2500 := by norm_num [pyRound]
    simp only [fmtSignedPct, h]
    decide
  refine ⟨?_, by decide⟩
  simp only [render_delta, hc, hs]

/-- C6, amended: for every metric with a non-null baseline (and the theme
configuration supplied, as `display_metric_section` always does): a strictly
positive computed delta is coloured "inverse" (the unfavorable direction), a
strictly negative one "normal" (favorable), a zero delta "off" (neutral), and
an undefined delta renders as "N/A" with no colour; the polarity logic is the
single shared code path with no per-metric override.  Current 1000 against
previous 800 renders "+25.00%" with the unfavorable colour. -/
theorem C6_delta_polarity :
    (∀ (v d : Val) (fmt : ℚ → String) (q : ℚ), d ≠ Val.null →
        calculate_delta_percentage v d = some q →
        render_delta v d fmt true
          = (some (fmt q),
             some (if 0 < q then "inverse" else if q < 0 then "normal" else "off")))
      ∧ (∀ (v d : Val) (fmt : ℚ → String), d ≠ Val.null →
          calculate_delta_percentage v d = none →
          render_delta v d fmt true = (some "N/A", none))
      ∧ render_delta (Val.num 1000) (Val.num 800) (fun q => fmtSignedPct q 2) true
          = (some "+25.00%", some "inverse") := by
  refine ⟨?_, ?_, ?_⟩
  · intro v d fmt q hd hc
    cases d with
    | null => exact absurd rfl hd
    | nan => simp [render_delta, hc]
    | num p => simp [render_delta, hc]
  · intro v d fmt hd hc
    cases d with
    | null => exact absurd rfl hd
    | nan => simp [render_delta, hc]
    | num p => simp [render_delta, hc]
  · have hc : calculate_delta_percentage (Val.num 1000) (Val.num 800) = some (1/4) := by
      norm_num [calculate_delta_percentage]
    have hs : fmtSignedPct (1/4) 2 = "+25.00%" := by
      have h : pyRound (1/4 * 100 * 10 ^ 2) = 2500 := by norm_num [pyRound]
      simp only [fmtSignedPct, h]
      decide
    simp only [render_delta, hc, hs, if_true]
    rw [if_pos (show (0:ℚ) < 1/4 by norm_num)]

/-- C6 witness: the polarity branch of the theorem applied at current 1000
against previous 800 (delta 1/4), and the undefined branch at current 5
against previous 0. -/
theorem C6_witness :
    render_delta (Val.num 1000) (Val.num 800) (fun q => fmtSignedPct q 2) true
        = (some (fmtSignedPct (1/4) 2),
           some (if (0:ℚ) < 1/4 then "inverse" else if (1/4:ℚ) < 0 then "normal" else "off"))
      ∧ render_delta (Val.num 5) (Val.num 0) (fun q => fmtSignedPct q 2) true
        = (some "N/A", none) :=
  ⟨C6_delta_polarity.1 (Val.num 1000) (Val.num 800) (fun q => fmtSignedPct q 2) (1/4)
      (fun hh => Val.noConfusion hh) (by norm_num [calculate_delta_percentage]),
   C6_delta_polarity.2.1 (Val.num 5) (Val.num 0) (fun q => fmtSignedPct q 2)
      (fun hh => Val.noConfusion hh) (by norm_num [calculate_delta_percentage])⟩

/-- C7: the pie chart's share column is `value / sum(value)` across all rows
when the total is positive — `[10, 20, 70]` yields `[0.10, 0.20, 0.70]`
summing to 1 — and every share is 0 when the total is 0, with no division
performed. -/
theorem C7_pie_shares :
    pieShares [10, 20, 70] = [1/10, 1/5, 7/10]
      ∧ (pieShares [10, 20, 70]).sum = 1
      ∧ (∀ values : List ℚ, values.sum = 0 → pieShares values = values.map fun _ => 0)
      ∧ (∀ values : List ℚ, 0 < values.sum →
          pieShares values = values.map fun v => v / values.sum) := by
  have hs : ([10, 20, 70] : List ℚ).sum = 100 := by
    norm_num [List.sum_cons, List.sum_nil]
  have h1 : pieShares [10, 20, 70] = [1/10, 1/5, 7/10] := by
    simp only [pieShares, hs]
    rw [if_pos (show (0:ℚ) < 100 by norm_num)]
    norm_num [List.map_cons, List.map_nil]
  refine ⟨h1, ?_, ?_, ?_⟩
  · rw [h1]
    norm_num [List.sum_cons, List.sum_nil]
  · intro values hsum
    simp only [pieShares, hsum]
    rw [if_neg (lt_irrefl 0)]
  · intro values hsum
    simp only [pieShares]
    rw [if_pos hsum]

/-- C7 witness: the zero-total branch of the theorem at the all-zero result
`[0, 0]`, and the positive-total branch at `[10, 20, 70]`. -/
theorem C7_witness :
    pieShares [0, 0] = ([0, 0] : List ℚ).map (fun _ => 0)
      ∧ pieShares [10, 20, 70]
        = ([10, 20, 70] : List ℚ).map fun v => v / ([10, 20, 70] : List ℚ).sum :=
  ⟨C7_pie_shares.2.2.1 [0, 0] (by norm_num [List.sum_cons, List.sum_nil]),
   C7_pie_shares.2.2.2 [10, 20, 70] (by norm_num [List.sum_cons, List.sum_nil])⟩

/-- C8: the warehouse auto-suspend rule fires exactly when the idle
percentage exceeds 20 and the auto-suspend setting exceeds 60 * 5 = 300
seconds; a warehouse with IDLE_PERCENTAGE = 35 and AUTO_SUSPEND = 600
produces an advisory naming that warehouse, and one with
IDLE_PERCENTAGE = 5 never triggers this rule. -/
theorem C8_idle_rule :
    (∀ wh : String,
        warehouseIdleRecommendation wh (Val.num 35) 600
          = some ("Warehouse **" ++ wh
              ++ "** has **35.0%** idle time and an auto-suspend setting of **10m 0.0s**. Consider reducing auto-suspend to 1 or 5 minutes to optimize cost."))
      ∧ (∀ (wh : String) (s : ℚ), warehouseIdleRecommendation wh (Val.num 5) s = none)
      ∧ (∀ (wh : String) (ip s : ℚ),
          (warehouseIdleRecommendation wh (Val.num ip) s).isSome = true
            ↔ (20 < ip ∧ 300 < s)) := by
  have hp : format_percentage (Val.num (35 / 100)) 1 = "35.0%" := by
    have h : pyRound (35 / 100 * 100 * 10 ^ 1) = 350 := by norm_num [pyRound]
    simp only [format_percentage, fmtFixed, h]
    decide
  have hd : format_duration_seconds (Val.num 600) 1 = "10m 0.0s" := by
    have h : pyRound 600 = 600 := by norm_num [pyRound]
    simp only [format_duration_seconds, h]
    decide
  refine ⟨?_, ?_, ?_⟩
  · intro wh
    simp only [warehouseIdleRecommendation]
    rw [if_pos (show (20:ℚ) < 35 ∧ (60:ℚ) * 5 < 600 by norm_num), hp, hd]
    simp only [String.append_assoc]
    congr 1
  · intro wh s
    simp only [warehouseIdleRecommendation]
    rw [if_neg (by norm_num : ¬((20:ℚ) < 5 ∧ (60:ℚ) * 5 < s))]
  · intro wh ip s
    simp only [warehouseIdleRecommendation]
    by_cases hc : (20:ℚ) < ip ∧ (60:ℚ) * 5 < s
    · rw [if_pos hc]
      constructor
      · intro _
        exact ⟨hc.1, by linarith [hc.2]⟩
      · intro _
        rfl
    · rw [if_neg hc]
      constructor
      · intro hh
        exact absurd hh (by decide)
      · intro hh
        exact absurd ⟨hh.1, by linarith [hh.2]⟩ hc

/-- C9: when the accumulated rule battery is empty, the recommendation
engine returns the single fixed sentinel string rather than an empty
collection; otherwise the nonempty list of advisories is returned as is. -/
theorem C9_empty_sentinel (recommendations : List String) :
    (recommendations = [] → finalizeRecommendations recommendations
        = ["No specific recommendations at this time for the selected criteria. Keep monitoring!"])
      ∧ (recommendations ≠ [] →
          finalizeRecommendations recommendations = recommendations
            ∧ finalizeRecommendations recommendations ≠ []) := by
  constructor
  · intro h
    subst h
    rfl
  · intro h
    cases recommendations with
    | nil => exact absurd rfl h
    | cons a l =>
      refine ⟨by simp [finalizeRecommendations], by simp [finalizeRecommendations]⟩

/-- C9 witness: the theorem at the empty battery and at a one-advisory
battery. -/
theorem C9_witness :
    finalizeRecommendations []
        = ["No specific recommendations at this time for the selected criteria. Keep monitoring!"]
      ∧ (finalizeRecommendations ["Advisory A"] = ["Advisory A"]
          ∧ finalizeRecommendations ["Advisory A"] ≠ []) :=
  ⟨(C9_empty_sentinel []).1 rfl, (C9_empty_sentinel ["Advisory A"]).2 (by simp)⟩

/-- C10: in `format_bytes` the null/NaN check precedes unit validation: a
null or NaN byte value yields "N/A" for every unit, recognized or not, while
`format_bytes(100, "XB")` raises the configuration error. -/
theorem C10_null_check_precedes_unit_validation :
    (∀ (unit : String) (d : ℕ),
        format_bytes Val.null unit d = Except.ok "N/A"
          ∧ format_bytes Val.nan unit d = Except.ok "N/A")
      ∧ format_bytes Val.null "XB" 2 = Except.ok "N/A"
      ∧ format_bytes (Val.num 100) "XB" 2
          = Except.error "Invalid unit. Choose from KB, MB, GB, TB" := by
  refine ⟨fun unit d => ⟨rfl, rfl⟩, rfl, ?_⟩
  have hu : asciiUpper "XB" = "XB" := by decide
  have hl : bytesUnits.lookup ("XB" : String) = none := by decide
  simp only [format_bytes, hu, hl]
